import Mathlib

/-!
Shallow embedding of `src/lib/adapters/document-sync-adapter.js` from the
atom-languageclient repository: the document-synchronization layer that keeps
locally open text documents in sync with a language server by emitting the
didOpen / didChange / didSave / didClose (and didChangeWatchedFiles)
notifications with per-document version counters.

The file defines the data model (editors, change events, notification shapes),
the per-editor session `TextEditorSyncAdapter` (version counter, change
tracking strategy, event handlers) and the coordinator `DocumentSyncAdapter`
(registry of sessions keyed by editor), all translated from the JavaScript
source.  Collaborators that live outside the studied file (the functions of
`../convert` and the enumerations of `../languageclient`) are treated as the
spec treats them: the pure conversion functions are injected parameters, the
enumeration values are fixed from the constants documented in the source
comments ("Full (1) or Incremental (2)") and the protocol.
-/

/-- A point in an Atom buffer: zero-based row and column. -/
structure Point where
  row : Nat
  column : Nat
deriving DecidableEq

/-- An Atom range, a pair of points.  (`end` is a Lean keyword, so the second
field is named `endPos`.) -/
structure AtomRange where
  start : Point
  endPos : Point
deriving DecidableEq

/-- A language-server protocol position. -/
structure LSPosition where
  line : Nat
  character : Nat
deriving DecidableEq

/-- A language-server protocol range. -/
structure LSRange where
  start : LSPosition
  endPos : LSPosition
deriving DecidableEq

/-- One sub-edit of an Atom coalesced change event (`atom$TextEditEvent`):
the replaced old range, the removed old text and the inserted new text. -/
structure TextEditEvent where
  oldRange : AtomRange
  oldText : String
  newText : String
deriving DecidableEq

/-- The Atom `onDidChangeText` event (`atom$DidStopChangingEvent`): an ordered
list of coalesced sub-edits. -/
structure DidStopChangingEvent where
  changes : List TextEditEvent
deriving DecidableEq

/-- A wire-level content change record (`TextDocumentContentChangeEvent`).
In Incremental mode all three fields are present; in Full mode only `text`. -/
structure TextDocumentContentChangeEvent where
  range : Option LSRange
  rangeLength : Option Nat
  text : String
deriving DecidableEq

/-- `VersionedTextDocumentIdentifier`: document uri plus current version. -/
structure VersionedTextDocumentIdentifier where
  uri : String
  version : Nat
deriving DecidableEq

/-- One entry of a `didChangeWatchedFiles` notification. -/
structure FileEvent where
  uri : String
  type : Nat
deriving DecidableEq

/-- The notifications the adapter can send through the
`LanguageClientConnection` sink, in the shapes the source constructs. -/
inductive Notification where
  | didOpenTextDocument (uri : String) (languageId : String) (version : Nat) (text : String)
  | didChangeTextDocument (textDocument : VersionedTextDocumentIdentifier)
      (contentChanges : List TextDocumentContentChangeEvent)
  | didSaveTextDocument (uri : String)
  | didChangeWatchedFiles (changes : List FileEvent)
  | didCloseTextDocument (uri : String)
deriving DecidableEq

/-- The state of a host `TextEditor` as the adapter observes it: persisted
URI and path (absent until first save), current full text, grammar name. -/
structure Editor where
  uri : Option String
  path : Option String
  text : String
  grammarName : String
deriving DecidableEq

namespace TextDocumentSyncKind

/-- `TextDocumentSyncKind.None` from `../languageclient` (protocol value 0). -/
def None : Nat := 0

/-- `TextDocumentSyncKind.Full` from `../languageclient`; the source comments
document it as "Full (1)". -/
def Full : Nat := 1

/-- `TextDocumentSyncKind.Incremental` from `../languageclient`; the source
comments document it as "Incremental (2)". -/
def Incremental : Nat := 2

end TextDocumentSyncKind

namespace FileChangeType

/-- `FileChangeType.Changed` from `../languageclient` (protocol value 2). -/
def Changed : Nat := 2

end FileChangeType

/-- Which change-tracking subscription `setupChangeTracking` installed:
`full` for `editor.onDidChange -> sendFullChanges`, `incremental` for
`buffer.onDidChangeText -> sendIncrementalChanges`. -/
inductive ChangeTracking where
  | full
  | incremental
deriving DecidableEq

/-- The state of one `TextEditorSyncAdapter`: the `_version` counter, the
installed change-tracking subscription (none when `setupChangeTracking`
returned null), and whether `dispose()` has run (subscriptions torn down). -/
structure TextEditorSyncAdapter where
  version : Nat
  changeTracking : Option ChangeTracking
  disposed : Bool
deriving DecidableEq

namespace TextEditorSyncAdapter

/-- `setupChangeTracking(documentSyncKind)`: switch on the sync kind, returning
the subscription to install, or `none` for any other kind (the JS `return null`
after the switch). -/
def setupChangeTracking (documentSyncKind : Nat) : Option ChangeTracking :=
  if documentSyncKind = TextDocumentSyncKind.Full then
    some ChangeTracking.full
  else if documentSyncKind = TextDocumentSyncKind.Incremental then
    some ChangeTracking.incremental
  else
    none

/-- `getEditorUri()`: `Convert.pathToUri(this._editor.getPath() || '')`.
`pathToUri` is the injected conversion of `../convert`; the `|| ''` fallback
applies it to the empty string when the editor has no path. -/
def getEditorUri (pathToUri : String → String) (editor : Editor) : String :=
  pathToUri (editor.path.getD "")

/-- `getLanguageId()`: the grammar name. -/
def getLanguageId (editor : Editor) : String :=
  editor.grammarName

/-- `getVersionedTextDocumentIdentifier()`: uri plus the current version. -/
def getVersionedTextDocumentIdentifier (pathToUri : String → String)
    (s : TextEditorSyncAdapter) (editor : Editor) : VersionedTextDocumentIdentifier :=
  { uri := getEditorUri pathToUri editor, version := s.version }

/-- `didOpen()`: guarded by `if (this._editor.getURI() == null) return;` —
emits the didOpen notification (uri, lower-cased language id, current version,
full text) only when the editor has a URI. -/
def didOpen (pathToUri : String → String) (s : TextEditorSyncAdapter)
    (editor : Editor) : List Notification :=
  match editor.uri with
  | none => []
  | some _ =>
    [Notification.didOpenTextDocument (getEditorUri pathToUri editor)
      (getLanguageId editor).toLower s.version editor.text]

/-- `sendFullChanges()`: increment `_version`, then emit one didChange
notification whose sole content change record carries only the entire current
editor text (no range, no rangeLength). -/
def sendFullChanges (pathToUri : String → String) (s : TextEditorSyncAdapter)
    (editor : Editor) : TextEditorSyncAdapter × List Notification :=
  let s1 : TextEditorSyncAdapter := { s with version := s.version + 1 }
  (s1,
    [Notification.didChangeTextDocument
      (getVersionedTextDocumentIdentifier pathToUri s1 editor)
      [{ range := none, rangeLength := none, text := editor.text }]])

/-- `textEditToContentChange(change)`: one content change record per sub-edit;
`range` is the converted old range, `rangeLength` the length of the removed
old text, `text` the inserted new text.  `atomRangeToLSRange` is the injected
conversion of `../convert`. -/
def textEditToContentChange (atomRangeToLSRange : AtomRange → LSRange)
    (change : TextEditEvent) : TextDocumentContentChangeEvent :=
  { range := some (atomRangeToLSRange change.oldRange),
    rangeLength := some change.oldText.length,
    text := change.newText }

/-- `sendIncrementalChanges(event)`: only when the coalesced event carries at
least one sub-edit, increment `_version` once and emit one didChange
notification with one converted record per sub-edit, in order. -/
def sendIncrementalChanges (pathToUri : String → String)
    (atomRangeToLSRange : AtomRange → LSRange) (s : TextEditorSyncAdapter)
    (editor : Editor) (event : DidStopChangingEvent) :
    TextEditorSyncAdapter × List Notification :=
  if event.changes.length > 0 then
    let s1 : TextEditorSyncAdapter := { s with version := s.version + 1 }
    (s1,
      [Notification.didChangeTextDocument
        (getVersionedTextDocumentIdentifier pathToUri s1 editor)
        (event.changes.map (textEditToContentChange atomRangeToLSRange))])
  else
    (s, [])

/-- `didDestroy()`: guarded by `if (this._editor.getURI() == null) return;` —
emits the didClose notification only when the editor has a URI. -/
def didDestroy (pathToUri : String → String) (editor : Editor) : List Notification :=
  match editor.uri with
  | none => []
  | some _ => [Notification.didCloseTextDocument (getEditorUri pathToUri editor)]

/-- `didSave()`: unconditionally emits the didSave notification followed by a
didChangeWatchedFiles notification for the same uri with `FileChangeType.Changed`.
Note: unlike `didOpen` and `didDestroy`, the source has no `getURI() == null`
guard here. -/
def didSave (pathToUri : String → String) (editor : Editor) : List Notification :=
  [Notification.didSaveTextDocument (getEditorUri pathToUri editor),
   Notification.didChangeWatchedFiles
     [{ uri := getEditorUri pathToUri editor, type := FileChangeType.Changed }]]

/-- `dispose()`: `this._disposable.dispose()` — tears down all subscriptions,
emits nothing, and (like `CompositeDisposable.dispose`) is idempotent. -/
def dispose (s : TextEditorSyncAdapter) : TextEditorSyncAdapter × List Notification :=
  ({ s with disposed := true }, [])

end TextEditorSyncAdapter

/-- The host events one session subscribes to: `editor.onDidChange` (Full
tracking), `buffer.onDidChangeText` (Incremental tracking, with the coalesced
sub-edits), `editor.onDidSave` and `editor.onDidDestroy`.  The `Editor`
argument of the dispatcher is the editor's state when the event fires. -/
inductive EditorEvent where
  | change
  | changeText (event : DidStopChangingEvent)
  | save
  | destroy
deriving DecidableEq

namespace TextEditorSyncAdapter

/-- Constructor of `TextEditorSyncAdapter`: `_version = 1`, install the
change-tracking subscription for the given sync kind, subscribe to save and
destroy, then call `didOpen()`.  Returns the new session and the notifications
emitted during construction. -/
def mkSession (pathToUri : String → String) (documentSyncKind : Nat)
    (editor : Editor) : TextEditorSyncAdapter × List Notification :=
  let s : TextEditorSyncAdapter :=
    { version := 1, changeTracking := setupChangeTracking documentSyncKind,
      disposed := false }
  (s, didOpen pathToUri s editor)

/-- Event dispatch for one session: a handler runs only while its subscription
is alive (the session is not disposed, and change events only reach the handler
`setupChangeTracking` installed).  Returns the updated session state and the
notifications emitted while handling the event. -/
def handleEvent (pathToUri : String → String)
    (atomRangeToLSRange : AtomRange → LSRange) (s : TextEditorSyncAdapter)
    (editor : Editor) (ev : EditorEvent) :
    TextEditorSyncAdapter × List Notification :=
  if s.disposed then (s, [])
  else
    match ev with
    | EditorEvent.change =>
      match s.changeTracking with
      | some ChangeTracking.full => sendFullChanges pathToUri s editor
      | _ => (s, [])
    | EditorEvent.changeText event =>
      match s.changeTracking with
      | some ChangeTracking.incremental =>
        sendIncrementalChanges pathToUri atomRangeToLSRange s editor event
      | _ => (s, [])
    | EditorEvent.save => (s, didSave pathToUri editor)
    | EditorEvent.destroy => (s, didDestroy pathToUri editor)

/-- Run a session through a list of events (each paired with the editor state
at delivery time), concatenating the emitted notifications in order. -/
def runEvents (pathToUri : String → String)
    (atomRangeToLSRange : AtomRange → LSRange) :
    TextEditorSyncAdapter → List (Editor × EditorEvent) →
    TextEditorSyncAdapter × List Notification
  | s, [] => (s, [])
  | s, (editor, ev) :: rest =>
    let r1 := handleEvent pathToUri atomRangeToLSRange s editor ev
    let r2 := runEvents pathToUri atomRangeToLSRange r1.1 rest
    (r2.1, r1.2 ++ r2.2)

end TextEditorSyncAdapter

/-- Recognizer for didChange notifications, used to count how many change
notifications an event or a trace emitted. -/
def isChangeNotification : Notification → Bool
  | Notification.didChangeTextDocument _ _ => true
  | _ => false

/-- Number of didChange notifications in an emitted list. -/
def countChangeNotifications (l : List Notification) : Nat :=
  (l.filter isChangeNotification).length

/-- The `textDocumentSync` member of the server's capabilities, absent
(`undefined` in JS) when the server does not declare it. -/
structure ServerCapabilities where
  textDocumentSync : Option Nat
deriving DecidableEq

namespace DocumentSyncAdapter

/-- `DocumentSyncAdapter.canAdapt(serverCapabilities)`:
`serverCapabilities.textDocumentSync === TextDocumentSyncKind.Incremental
 || serverCapabilities.textDocumentSync == TextDocumentSyncKind.Full`.
On a number-or-absent capability the JS `===` and `==` agree (`undefined == 1`
is false), so both comparisons are plain equality tests here.  The function is
pure: it is a Bool-valued function of its argument with no state. -/
def canAdapt (serverCapabilities : ServerCapabilities) : Bool :=
  serverCapabilities.textDocumentSync == some TextDocumentSyncKind.Incremental
    || serverCapabilities.textDocumentSync == some TextDocumentSyncKind.Full

end DocumentSyncAdapter

/-- Editors are compared by object identity in the `WeakMap`; the model keys
the registry by a numeric editor handle. -/
abbrev EditorId := Nat

/-- The coordinator state: the `_editors` WeakMap as an association list from
editor handles to live sessions, plus the `_documentSyncKind` fixed at
construction.  (`_connection` and `_editorSelector` are injected parameters of
the operations below.) -/
structure DocumentSyncAdapterState where
  editors : List (EditorId × TextEditorSyncAdapter)
  documentSyncKind : Nat
deriving DecidableEq

namespace DocumentSyncAdapter

open TextEditorSyncAdapter

/-- Does the `_editors` WeakMap have an entry for this editor? -/
def hasEditor (a : DocumentSyncAdapterState) (eid : EditorId) : Bool :=
  a.editors.any (fun p => p.1 == eid)

/-- `WeakMap.delete`: remove the (unique) entry for the key, if present. -/
def deleteEditor : List (EditorId × TextEditorSyncAdapter) → EditorId →
    List (EditorId × TextEditorSyncAdapter)
  | [], _ => []
  | p :: rest, eid => if p.1 = eid then rest else p :: deleteEditor rest eid

/-- `observeTextEditor(editor)`: when the editor has no session yet and the
injected selector accepts it, construct a `TextEditorSyncAdapter` (which emits
its didOpen notification), store it in the WeakMap and register teardown;
otherwise do nothing. -/
def observeTextEditor (pathToUri : String → String)
    (editorSelector : Editor → Bool) (a : DocumentSyncAdapterState)
    (eid : EditorId) (editor : Editor) :
    DocumentSyncAdapterState × List Notification :=
  if ¬ hasEditor a eid ∧ editorSelector editor then
    let r := mkSession pathToUri a.documentSyncKind editor
    ({ a with editors := (eid, r.1) :: a.editors }, r.2)
  else
    (a, [])

/-- The editor's destroy event as seen by the whole adapter: the session's own
`didDestroy` handler (registered first, in the session constructor) emits the
didClose notification, then the teardown hook registered by
`observeTextEditor` deletes the WeakMap entry and disposes the session. -/
def destroyEditor (pathToUri : String → String) (a : DocumentSyncAdapterState)
    (eid : EditorId) (editor : Editor) :
    DocumentSyncAdapterState × List Notification :=
  match a.editors.find? (fun p => p.1 == eid) with
  | none => (a, [])
  | some _ =>
    ({ a with editors := deleteEditor a.editors eid },
      TextEditorSyncAdapter.didDestroy pathToUri editor)

end DocumentSyncAdapter

/-! Concrete instances of the injected collaborators and sample states, used
to evaluate the definitions on closed inputs. -/

/-- A concrete instance of the injected `Convert.pathToUri`. -/
def samplePathToUri (path : String) : String := "file://" ++ path

/-- A concrete instance of the injected `Convert.atomRangeToLSRange`:
row becomes line, column becomes character. -/
def sampleRangeConv (r : AtomRange) : LSRange :=
  { start := { line := r.start.row, character := r.start.column },
    endPos := { line := r.endPos.row, character := r.endPos.column } }

/-- An editor that has been saved: it has a URI and a path. -/
def savedEditor : Editor :=
  { uri := some "/a.ts", path := some "/a.ts", text := "let x = 1",
    grammarName := "TypeScript" }

/-- An editor that has never been saved: no URI, no path. -/
def unsavedEditor : Editor :=
  { uri := none, path := none, text := "hello", grammarName := "JavaScript" }

/-- A live incremental-mode session at version 1. -/
def sampleIncSession : TextEditorSyncAdapter :=
  { version := 1, changeTracking := some ChangeTracking.incremental,
    disposed := false }

/-- A live full-mode session at version 1. -/
def sampleFullSession : TextEditorSyncAdapter :=
  { version := 1, changeTracking := some ChangeTracking.full,
    disposed := false }

/-- A one-sub-edit coalesced change event: insert "x" at the buffer start. -/
def sampleChangeEvent : DidStopChangingEvent :=
  { changes := [{ oldRange := { start := { row := 0, column := 0 },
                                endPos := { row := 0, column := 0 } },
                  oldText := "", newText := "x" }] }

/-! Claim theorems. -/

/-- C3: `canAdapt(serverCapabilities)` returns true if and only if the declared
`textDocumentSync` capability is exactly Full or exactly Incremental; `None`
(value 0), an absent capability, and every other value yield false.  Purity
holds by construction: `canAdapt` is a Bool-valued function of its argument. -/
theorem canAdapt_iff_full_or_incremental (caps : ServerCapabilities) :
    DocumentSyncAdapter.canAdapt caps = true ↔
      (caps.textDocumentSync = some TextDocumentSyncKind.Full ∨
       caps.textDocumentSync = some TextDocumentSyncKind.Incremental) := by
  simp [DocumentSyncAdapter.canAdapt, or_comm]

/-- C4: a coalesced change event with zero sub-edits is a complete no-op for
any session: the state (in particular the version counter) is unchanged and
no notification is emitted. -/
theorem emptyChangeBatch_noop (pathToUri : String → String)
    (conv : AtomRange → LSRange) (s : TextEditorSyncAdapter) (editor : Editor)
    (e : DidStopChangingEvent) (h : e.changes = []) :
    TextEditorSyncAdapter.handleEvent pathToUri conv s editor
      (EditorEvent.changeText e) = (s, []) := by
  obtain ⟨v, ct, d⟩ := s
  cases d with
  | true => simp [TextEditorSyncAdapter.handleEvent]
  | false =>
    cases ct with
    | none => simp [TextEditorSyncAdapter.handleEvent]
    | some c =>
      cases c <;>
        simp [TextEditorSyncAdapter.handleEvent,
          TextEditorSyncAdapter.sendIncrementalChanges, h]

/-- Witness for C4: the empty batch delivered to a live incremental session. -/
theorem emptyChangeBatch_noop_witness :
    TextEditorSyncAdapter.handleEvent samplePathToUri sampleRangeConv
      sampleIncSession savedEditor (EditorEvent.changeText { changes := [] })
      = (sampleIncSession, []) :=
  emptyChangeBatch_noop samplePathToUri sampleRangeConv sampleIncSession
    savedEditor { changes := [] } rfl

/-- C6: in Full mode, on a change event a live session emits exactly one
didChange notification whose single content change record has no range and no
rangeLength and whose text is the entire current editor text at emission. -/
theorem fullChange_whole_text (pathToUri : String → String)
    (conv : AtomRange → LSRange) (s : TextEditorSyncAdapter) (editor : Editor)
    (hct : s.changeTracking = some ChangeTracking.full)
    (hd : s.disposed = false) :
    TextEditorSyncAdapter.handleEvent pathToUri conv s editor EditorEvent.change
      = ({ s with version := s.version + 1 },
         [Notification.didChangeTextDocument
            { uri := TextEditorSyncAdapter.getEditorUri pathToUri editor,
              version := s.version + 1 }
            [{ range := none, rangeLength := none, text := editor.text }]]) := by
  obtain ⟨v, ct, d⟩ := s
  cases hct
  cases hd
  rfl

/-- Witness for C6: a live full-mode session on the saved editor. -/
theorem fullChange_whole_text_witness :
    TextEditorSyncAdapter.handleEvent samplePathToUri sampleRangeConv
      sampleFullSession savedEditor EditorEvent.change
      = ({ sampleFullSession with version := 2 },
         [Notification.didChangeTextDocument
            { uri := samplePathToUri "/a.ts", version := 2 }
            [{ range := none, rangeLength := none, text := savedEditor.text }]]) :=
  fullChange_whole_text samplePathToUri sampleRangeConv sampleFullSession
    savedEditor rfl rfl

/-- C7: on every save event on a live session, the didSave notification
(identity only) is emitted strictly before the didChangeWatchedFiles
notification, the latter carries the same uri with `FileChangeType.Changed`,
and both come out of the single synchronous handling of that event (one
output list, session state untouched). -/
theorem save_before_watchedFiles (pathToUri : String → String)
    (conv : AtomRange → LSRange) (s : TextEditorSyncAdapter) (editor : Editor)
    (hd : s.disposed = false) :
    TextEditorSyncAdapter.handleEvent pathToUri conv s editor EditorEvent.save
      = (s, [Notification.didSaveTextDocument
               (TextEditorSyncAdapter.getEditorUri pathToUri editor),
             Notification.didChangeWatchedFiles
               [{ uri := TextEditorSyncAdapter.getEditorUri pathToUri editor,
                  type := FileChangeType.Changed }]]) := by
  obtain ⟨v, ct, d⟩ := s
  cases hd
  rfl

/-- Witness for C7: a save event on the saved editor's live session. -/
theorem save_before_watchedFiles_witness :
    TextEditorSyncAdapter.handleEvent samplePathToUri sampleRangeConv
      sampleIncSession savedEditor EditorEvent.save
      = (sampleIncSession,
         [Notification.didSaveTextDocument (samplePathToUri "/a.ts"),
          Notification.didChangeWatchedFiles
            [{ uri := samplePathToUri "/a.ts", type := FileChangeType.Changed }]]) :=
  save_before_watchedFiles samplePathToUri sampleRangeConv sampleIncSession
    savedEditor rfl

/-- C5: in Incremental mode, a non-empty coalesced change event on a live
session yields exactly one didChange notification whose record list is the
in-order image of the sub-edit list, and each converted record carries the
sub-edit's old range (converted to protocol coordinates), the length of the
removed old text as rangeLength, and the inserted new text. -/
theorem incrementalChanges_faithful (pathToUri : String → String)
    (conv : AtomRange → LSRange) (s : TextEditorSyncAdapter) (editor : Editor)
    (e : DidStopChangingEvent)
    (hct : s.changeTracking = some ChangeTracking.incremental)
    (hd : s.disposed = false) (hne : e.changes ≠ []) :
    TextEditorSyncAdapter.handleEvent pathToUri conv s editor
        (EditorEvent.changeText e)
      = ({ s with version := s.version + 1 },
         [Notification.didChangeTextDocument
            { uri := TextEditorSyncAdapter.getEditorUri pathToUri editor,
              version := s.version + 1 }
            (e.changes.map (TextEditorSyncAdapter.textEditToContentChange conv))])
    ∧ ∀ c : TextEditEvent,
        TextEditorSyncAdapter.textEditToContentChange conv c
          = { range := some (conv c.oldRange),
              rangeLength := some c.oldText.length,
              text := c.newText } := by
  have hlen : 0 < e.changes.length := List.length_pos.mpr hne
  refine ⟨?_, fun c => rfl⟩
  obtain ⟨v, ct, d⟩ := s
  cases hct
  cases hd
  simp [TextEditorSyncAdapter.handleEvent,
    TextEditorSyncAdapter.sendIncrementalChanges, hlen,
    TextEditorSyncAdapter.getVersionedTextDocumentIdentifier]

/-- Witness for C5: the one-sub-edit batch on a live incremental session. -/
theorem incrementalChanges_faithful_witness :
    TextEditorSyncAdapter.handleEvent samplePathToUri sampleRangeConv
        sampleIncSession savedEditor (EditorEvent.changeText sampleChangeEvent)
      = ({ sampleIncSession with version := 2 },
         [Notification.didChangeTextDocument
            { uri := samplePathToUri "/a.ts", version := 2 }
            (sampleChangeEvent.changes.map
              (TextEditorSyncAdapter.textEditToContentChange sampleRangeConv))]) :=
  (incrementalChanges_faithful samplePathToUri sampleRangeConv sampleIncSession
    savedEditor sampleChangeEvent rfl rfl (by decide)).1

/-- One event changes the version by exactly the number of didChange
notifications it emitted. -/
theorem handleEvent_version_eq (pathToUri : String → String)
    (conv : AtomRange → LSRange) (s : TextEditorSyncAdapter) (editor : Editor)
    (ev : EditorEvent) :
    (TextEditorSyncAdapter.handleEvent pathToUri conv s editor ev).1.version
      = s.version + countChangeNotifications
          (TextEditorSyncAdapter.handleEvent pathToUri conv s editor ev).2 := by
  obtain ⟨v, ct, d⟩ := s
  cases d with
  | true => simp [TextEditorSyncAdapter.handleEvent, countChangeNotifications]
  | false =>
    cases ev with
    | change =>
      cases ct with
      | none =>
        simp [TextEditorSyncAdapter.handleEvent, countChangeNotifications]
      | some c =>
        cases c <;>
          simp [TextEditorSyncAdapter.handleEvent,
            TextEditorSyncAdapter.sendFullChanges, countChangeNotifications,
            isChangeNotification]
    | changeText e =>
      cases ct with
      | none =>
        simp [TextEditorSyncAdapter.handleEvent, countChangeNotifications]
      | some c =>
        cases c with
        | full =>
          simp [TextEditorSyncAdapter.handleEvent, countChangeNotifications]
        | incremental =>
          by_cases hlen : 0 < e.changes.length <;>
            simp [TextEditorSyncAdapter.handleEvent,
              TextEditorSyncAdapter.sendIncrementalChanges, hlen,
              countChangeNotifications, isChangeNotification]
    | save =>
      simp [TextEditorSyncAdapter.handleEvent, TextEditorSyncAdapter.didSave,
        countChangeNotifications, isChangeNotification]
    | destroy =>
      cases hu : editor.uri <;>
        simp [TextEditorSyncAdapter.handleEvent,
          TextEditorSyncAdapter.didDestroy, hu, countChangeNotifications,
          isChangeNotification]

/-- Save and destroy events never touch the session state (the version in
particular). -/
theorem handleEvent_save_destroy_state (pathToUri : String → String)
    (conv : AtomRange → LSRange) (s : TextEditorSyncAdapter) (editor : Editor) :
    (TextEditorSyncAdapter.handleEvent pathToUri conv s editor
        EditorEvent.save).1 = s
    ∧ (TextEditorSyncAdapter.handleEvent pathToUri conv s editor
        EditorEvent.destroy).1 = s := by
  obtain ⟨v, ct, d⟩ := s
  cases d <;> simp [TextEditorSyncAdapter.handleEvent]

/-- Over a whole trace, the version grows by exactly the number of didChange
notifications emitted. -/
theorem runEvents_version_eq (pathToUri : String → String)
    (conv : AtomRange → LSRange) :
    ∀ (evs : List (Editor × EditorEvent)) (s : TextEditorSyncAdapter),
      (TextEditorSyncAdapter.runEvents pathToUri conv s evs).1.version
        = s.version + countChangeNotifications
            (TextEditorSyncAdapter.runEvents pathToUri conv s evs).2
  | [], s => by
    simp [TextEditorSyncAdapter.runEvents, countChangeNotifications]
  | (editor, ev) :: rest, s => by
    have h1 := handleEvent_version_eq pathToUri conv s editor ev
    have h2 := runEvents_version_eq pathToUri conv rest
      (TextEditorSyncAdapter.handleEvent pathToUri conv s editor ev).1
    simp only [TextEditorSyncAdapter.runEvents, countChangeNotifications,
      List.filter_append, List.length_append] at *
    omega

/-- C2: the version counter is 1 immediately after construction, each event
changes it by exactly the number of didChange notifications that event emitted
(so save and destroy, which emit none, never increment it, and a change batch
increments it once per notification, not once per sub-edit), it never
decreases, and over any trace it equals its start value plus the total number
of emitted didChange notifications. -/
theorem version_counter_invariant (pathToUri : String → String)
    (conv : AtomRange → LSRange) :
    (∀ (documentSyncKind : Nat) (editor : Editor),
        (TextEditorSyncAdapter.mkSession pathToUri documentSyncKind
          editor).1.version = 1)
    ∧ (∀ (s : TextEditorSyncAdapter) (editor : Editor) (ev : EditorEvent),
        (TextEditorSyncAdapter.handleEvent pathToUri conv s editor
            ev).1.version
          = s.version + countChangeNotifications
              (TextEditorSyncAdapter.handleEvent pathToUri conv s editor ev).2
        ∧ s.version ≤ (TextEditorSyncAdapter.handleEvent pathToUri conv s
            editor ev).1.version)
    ∧ (∀ (s : TextEditorSyncAdapter) (editor : Editor),
        (TextEditorSyncAdapter.handleEvent pathToUri conv s editor
            EditorEvent.save).1 = s
        ∧ (TextEditorSyncAdapter.handleEvent pathToUri conv s editor
            EditorEvent.destroy).1 = s)
    ∧ (∀ (s : TextEditorSyncAdapter) (evs : List (Editor × EditorEvent)),
        (TextEditorSyncAdapter.runEvents pathToUri conv s evs).1.version
          = s.version + countChangeNotifications
              (TextEditorSyncAdapter.runEvents pathToUri conv s evs).2) := by
  refine ⟨fun k editor => rfl, fun s editor ev => ⟨?_, ?_⟩,
    fun s editor => handleEvent_save_destroy_state pathToUri conv s editor,
    fun s evs => runEvents_version_eq pathToUri conv evs s⟩
  · exact handleEvent_version_eq pathToUri conv s editor ev
  · have h := handleEvent_version_eq pathToUri conv s editor ev
    omega

/-- C9: `dispose()` emits nothing and is idempotent (a second dispose is the
identity, still emitting nothing), and a didClose notification can only come
out of handling the destroy event — no other event ever emits one. -/
theorem dispose_idempotent_no_close (pathToUri : String → String)
    (conv : AtomRange → LSRange) :
    (∀ s : TextEditorSyncAdapter,
        (TextEditorSyncAdapter.dispose s).2 = []
        ∧ TextEditorSyncAdapter.dispose (TextEditorSyncAdapter.dispose s).1
            = TextEditorSyncAdapter.dispose s)
    ∧ (∀ (s : TextEditorSyncAdapter) (editor : Editor) (ev : EditorEvent)
          (u : String),
        Notification.didCloseTextDocument u
            ∈ (TextEditorSyncAdapter.handleEvent pathToUri conv s editor ev).2 →
        ev = EditorEvent.destroy) := by
  constructor
  · intro s
    exact ⟨rfl, rfl⟩
  · intro s editor ev u h
    obtain ⟨v, ct, d⟩ := s
    cases d with
    | true => simp [TextEditorSyncAdapter.handleEvent] at h
    | false =>
      cases ev with
      | change =>
        cases ct with
        | none => simp [TextEditorSyncAdapter.handleEvent] at h
        | some c =>
          cases c <;>
            simp [TextEditorSyncAdapter.handleEvent,
              TextEditorSyncAdapter.sendFullChanges] at h
      | changeText e =>
        cases ct with
        | none => simp [TextEditorSyncAdapter.handleEvent] at h
        | some c =>
          cases c with
          | full => simp [TextEditorSyncAdapter.handleEvent] at h
          | incremental =>
            by_cases hlen : 0 < e.changes.length <;>
              simp [TextEditorSyncAdapter.handleEvent,
                TextEditorSyncAdapter.sendIncrementalChanges, hlen] at h
      | save =>
        simp [TextEditorSyncAdapter.handleEvent,
          TextEditorSyncAdapter.didSave] at h
      | destroy => rfl

/-- Witness for C9: a double dispose on a concrete session, and the close
notification actually emitted by a concrete destroy event. -/
theorem dispose_idempotent_no_close_witness :
    (TextEditorSyncAdapter.dispose sampleIncSession).2 = []
    ∧ EditorEvent.destroy = EditorEvent.destroy :=
  ⟨((dispose_idempotent_no_close samplePathToUri sampleRangeConv).1
      sampleIncSession).1,
   (dispose_idempotent_no_close samplePathToUri sampleRangeConv).2
      sampleIncSession savedEditor EditorEvent.destroy (samplePathToUri "/a.ts")
      (by decide)⟩

/-- With no change-tracking subscription, no event changes the session state
or emits a didChange notification. -/
theorem handleEvent_noTracking (pathToUri : String → String)
    (conv : AtomRange → LSRange) (s : TextEditorSyncAdapter) (editor : Editor)
    (ev : EditorEvent) (h : s.changeTracking = none) :
    (TextEditorSyncAdapter.handleEvent pathToUri conv s editor ev).1 = s
    ∧ countChangeNotifications
        (TextEditorSyncAdapter.handleEvent pathToUri conv s editor ev).2 = 0 := by
  obtain ⟨v, ct, d⟩ := s
  cases h
  cases d with
  | true => simp [TextEditorSyncAdapter.handleEvent, countChangeNotifications]
  | false =>
    cases ev with
    | change =>
      simp [TextEditorSyncAdapter.handleEvent, countChangeNotifications]
    | changeText e =>
      simp [TextEditorSyncAdapter.handleEvent, countChangeNotifications]
    | save =>
      simp [TextEditorSyncAdapter.handleEvent, TextEditorSyncAdapter.didSave,
        countChangeNotifications, isChangeNotification]
    | destroy =>
      cases hu : editor.uri <;>
        simp [TextEditorSyncAdapter.handleEvent,
          TextEditorSyncAdapter.didDestroy, hu, countChangeNotifications,
          isChangeNotification]

/-- With no change-tracking subscription, a whole trace leaves the session
state unchanged and emits no didChange notification. -/
theorem runEvents_noTracking (pathToUri : String → String)
    (conv : AtomRange → LSRange) :
    ∀ (evs : List (Editor × EditorEvent)) (s : TextEditorSyncAdapter),
      s.changeTracking = none →
      (TextEditorSyncAdapter.runEvents pathToUri conv s evs).1 = s
      ∧ countChangeNotifications
          (TextEditorSyncAdapter.runEvents pathToUri conv s evs).2 = 0
  | [], s, _ => by
    simp [TextEditorSyncAdapter.runEvents, countChangeNotifications]
  | (editor, ev) :: rest, s, h => by
    have h1 := handleEvent_noTracking pathToUri conv s editor ev h
    have h2 := runEvents_noTracking pathToUri conv rest
      (TextEditorSyncAdapter.handleEvent pathToUri conv s editor ev).1
      (by rw [h1.1]; exact h)
    simp only [TextEditorSyncAdapter.runEvents, countChangeNotifications,
      List.filter_append, List.length_append] at *
    constructor
    · rw [h2.1, h1.1]
    · omega

/-- C10: constructing a session with a sync kind that is neither Full (1) nor
Incremental (2) succeeds (total function) with no change-tracking
subscription; the open notification is emitted as usual, save and destroy
events are handled exactly as usual, but no trace of events ever emits a
didChange notification or moves the version off 1. -/
theorem unrecognizedKind_dormant_changes (pathToUri : String → String)
    (conv : AtomRange → LSRange) (documentSyncKind : Nat)
    (h1 : documentSyncKind ≠ TextDocumentSyncKind.Full)
    (h2 : documentSyncKind ≠ TextDocumentSyncKind.Incremental)
    (editor : Editor) :
    (TextEditorSyncAdapter.mkSession pathToUri documentSyncKind editor).1
      = { version := 1, changeTracking := none, disposed := false }
    ∧ (TextEditorSyncAdapter.mkSession pathToUri documentSyncKind editor).2
      = TextEditorSyncAdapter.didOpen pathToUri
          { version := 1, changeTracking := none, disposed := false } editor
    ∧ (∀ editorNow : Editor,
        TextEditorSyncAdapter.handleEvent pathToUri conv
            (TextEditorSyncAdapter.mkSession pathToUri documentSyncKind
              editor).1 editorNow EditorEvent.save
          = ((TextEditorSyncAdapter.mkSession pathToUri documentSyncKind
              editor).1, TextEditorSyncAdapter.didSave pathToUri editorNow)
        ∧ TextEditorSyncAdapter.handleEvent pathToUri conv
            (TextEditorSyncAdapter.mkSession pathToUri documentSyncKind
              editor).1 editorNow EditorEvent.destroy
          = ((TextEditorSyncAdapter.mkSession pathToUri documentSyncKind
              editor).1, TextEditorSyncAdapter.didDestroy pathToUri editorNow))
    ∧ (∀ evs : List (Editor × EditorEvent),
        (TextEditorSyncAdapter.runEvents pathToUri conv
            (TextEditorSyncAdapter.mkSession pathToUri documentSyncKind
              editor).1 evs).1.version = 1
        ∧ countChangeNotifications
            (TextEditorSyncAdapter.runEvents pathToUri conv
              (TextEditorSyncAdapter.mkSession pathToUri documentSyncKind
                editor).1 evs).2 = 0) := by
  have hset : TextEditorSyncAdapter.setupChangeTracking documentSyncKind
      = none := by
    simp [TextEditorSyncAdapter.setupChangeTracking, h1, h2]
  have hmk : (TextEditorSyncAdapter.mkSession pathToUri documentSyncKind
      editor).1 = { version := 1, changeTracking := none, disposed := false } := by
    simp [TextEditorSyncAdapter.mkSession, hset]
  refine ⟨hmk, ?_, ?_, ?_⟩
  · show TextEditorSyncAdapter.didOpen pathToUri
        (TextEditorSyncAdapter.mkSession pathToUri documentSyncKind editor).1
        editor = _
    rw [hmk]
  · intro editorNow
    rw [hmk]
    exact ⟨rfl, rfl⟩
  · intro evs
    have h := runEvents_noTracking pathToUri conv evs
      (TextEditorSyncAdapter.mkSession pathToUri documentSyncKind editor).1
      (by rw [hmk])
    refine ⟨?_, h.2⟩
    rw [h.1, hmk]

/-- Witness for C10: sync kind 0 (`TextDocumentSyncKind.None`). -/
theorem unrecognizedKind_dormant_changes_witness :
    (TextEditorSyncAdapter.mkSession samplePathToUri 0 savedEditor).1
      = { version := 1, changeTracking := none, disposed := false } :=
  (unrecognizedKind_dormant_changes samplePathToUri sampleRangeConv 0
    (by decide) (by decide) savedEditor).1

/-- When the WeakMap has no entry for an editor, its handle is not among the
registry keys. -/
theorem hasEditor_false_not_mem (a : DocumentSyncAdapterState) (eid : EditorId)
    (h : DocumentSyncAdapter.hasEditor a eid = false) :
    eid ∉ a.editors.map Prod.fst := by
  intro hmem
  obtain ⟨p, hp, hfst⟩ := List.mem_map.mp hmem
  have := List.any_eq_false.mp h p hp
  simp [hfst] at this

/-- Deleting a key from the registry keeps the key list a sublist of the
original. -/
theorem deleteEditor_keys_sublist (eid : EditorId) :
    ∀ l : List (EditorId × TextEditorSyncAdapter),
      ((DocumentSyncAdapter.deleteEditor l eid).map Prod.fst).Sublist
        (l.map Prod.fst)
  | [] => List.Sublist.refl _
  | p :: rest => by
    by_cases hp : p.1 = eid
    · simp only [DocumentSyncAdapter.deleteEditor, if_pos hp, List.map_cons]
      exact List.sublist_cons_of_sublist _ (List.Sublist.refl _)
    · simp only [DocumentSyncAdapter.deleteEditor, if_neg hp, List.map_cons]
      exact List.Sublist.cons₂ _ (deleteEditor_keys_sublist eid rest)

/-- Deleting a key from a registry with pairwise-distinct keys leaves no entry
for that key. -/
theorem deleteEditor_all_ne (eid : EditorId) :
    ∀ l : List (EditorId × TextEditorSyncAdapter),
      (l.map Prod.fst).Nodup →
      (DocumentSyncAdapter.deleteEditor l eid).all (fun p => p.1 != eid) = true
  | [], _ => rfl
  | p :: rest, hnd => by
    rw [List.map_cons, List.nodup_cons] at hnd
    have hhead : p.1 ∉ rest.map Prod.fst := hnd.1
    have htail : (rest.map Prod.fst).Nodup := hnd.2
    by_cases hp : p.1 = eid
    · simp only [DocumentSyncAdapter.deleteEditor, if_pos hp]
      rw [List.all_eq_true]
      intro q hq
      have : q.1 ∈ rest.map Prod.fst := List.mem_map.mpr ⟨q, hq, rfl⟩
      have hne : q.1 ≠ eid := by
        intro he
        exact hhead (by rw [hp, ← he] at *; exact this)
      simpa using hne
    · simp only [DocumentSyncAdapter.deleteEditor, if_neg hp]
      rw [List.all_eq_true]
      intro q hq
      rcases List.mem_cons.mp hq with hq1 | hq2
      · subst hq1; simpa using hp
      · have := List.all_eq_true.mp (deleteEditor_all_ne eid rest htail) q hq2
        simpa using this

/-- C8: the registry keeps at most one session per open, accepted document:
`observeTextEditor` does nothing when the editor already has a session or the
selector rejects it; otherwise it adds exactly one new session (constructed by
`mkSession`) in front of the registry; distinctness of registry keys is
preserved by observation; and the destroy-event teardown deletes the editor's
entry, after which (under distinct keys) no session for that editor remains. -/
theorem observe_registry_invariant (pathToUri : String → String)
    (editorSelector : Editor → Bool) (a : DocumentSyncAdapterState)
    (eid : EditorId) (editor : Editor) :
    (DocumentSyncAdapter.hasEditor a eid = true →
        DocumentSyncAdapter.observeTextEditor pathToUri editorSelector a eid
          editor = (a, []))
    ∧ (editorSelector editor = false →
        DocumentSyncAdapter.observeTextEditor pathToUri editorSelector a eid
          editor = (a, []))
    ∧ (DocumentSyncAdapter.hasEditor a eid = false →
        editorSelector editor = true →
        DocumentSyncAdapter.observeTextEditor pathToUri editorSelector a eid
            editor
          = ({ a with editors :=
                (eid, (TextEditorSyncAdapter.mkSession pathToUri
                  a.documentSyncKind editor).1) :: a.editors },
             (TextEditorSyncAdapter.mkSession pathToUri a.documentSyncKind
               editor).2))
    ∧ ((a.editors.map Prod.fst).Nodup →
        ((DocumentSyncAdapter.observeTextEditor pathToUri editorSelector a eid
          editor).1.editors.map Prod.fst).Nodup)
    ∧ ((a.editors.map Prod.fst).Nodup →
        ((DocumentSyncAdapter.destroyEditor pathToUri a eid
            editor).1.editors.map Prod.fst).Nodup
        ∧ (DocumentSyncAdapter.destroyEditor pathToUri a eid
            editor).1.editors.all (fun p => p.1 != eid) = true) := by
  refine ⟨?_, ?_, ?_, ?_, ?_⟩
  · intro h
    simp [DocumentSyncAdapter.observeTextEditor, h]
  · intro h
    simp [DocumentSyncAdapter.observeTextEditor, h]
  · intro h1 h2
    simp [DocumentSyncAdapter.observeTextEditor, h1, h2]
  · intro hnd
    by_cases h1 : DocumentSyncAdapter.hasEditor a eid
    · simp [DocumentSyncAdapter.observeTextEditor, h1, hnd]
    · by_cases h2 : editorSelector editor
      · have hne := hasEditor_false_not_mem a eid (by simpa using h1)
        simp only [DocumentSyncAdapter.observeTextEditor]
        rw [if_pos ⟨by simpa using h1, h2⟩]
        simpa using List.nodup_cons.mpr ⟨hne, hnd⟩
      · simp [DocumentSyncAdapter.observeTextEditor, h2, hnd]
  · intro hnd
    unfold DocumentSyncAdapter.destroyEditor
    cases hfind : a.editors.find? (fun p => p.1 == eid) with
    | none =>
      refine ⟨hnd, ?_⟩
      rw [List.all_eq_true]
      intro q hq
      have := List.find?_eq_none.mp hfind q hq
      simpa using this
    | some p =>
      refine ⟨List.Nodup.sublist (deleteEditor_keys_sublist eid a.editors)
        hnd, ?_⟩
      exact deleteEditor_all_ne eid a.editors hnd

/-- Witness for C8: observing a fresh editor on an empty registry adds its
session; observing it again changes nothing; a destroy event removes it. -/
theorem observe_registry_invariant_witness :
    DocumentSyncAdapter.observeTextEditor samplePathToUri (fun _ => true)
        { editors := [], documentSyncKind := 2 } 1 savedEditor
      = ({ editors :=
            [(1, (TextEditorSyncAdapter.mkSession samplePathToUri 2
              savedEditor).1)],
           documentSyncKind := 2 },
         (TextEditorSyncAdapter.mkSession samplePathToUri 2 savedEditor).2) :=
  (observe_registry_invariant samplePathToUri (fun _ => true)
    { editors := [], documentSyncKind := 2 } 1 savedEditor).2.2.1 rfl rfl

/-- C1 counterexample: a save event on a live session for the never-saved
editor (no URI, no path) still emits notifications — the source `didSave` has
no `getURI() == null` guard, unlike `didOpen` and `didDestroy` — refuting the
claim that didSave is a silent no-op for a document without stable identity. -/
theorem unsaved_didSave_emits :
    (TextEditorSyncAdapter.handleEvent samplePathToUri sampleRangeConv
      sampleIncSession unsavedEditor EditorEvent.save).2 ≠ [] := by
  decide

/-- C1 (amended): for a document lacking a stable identity, only `didOpen` and
`didDestroy` are silent no-ops; `didSave` still emits the save notification
followed by the watched-files notification, and the change senders still emit
change notifications.  The injected conversion is then applied to the empty
string (the `getPath() || ''` fallback), never to the absent location itself. -/
theorem unsaved_identity_guards (pathToUri : String → String)
    (conv : AtomRange → LSRange) (s : TextEditorSyncAdapter) (editor : Editor)
    (hu : editor.uri = none) (hp : editor.path = none) :
    TextEditorSyncAdapter.didOpen pathToUri s editor = []
    ∧ TextEditorSyncAdapter.didDestroy pathToUri editor = []
    ∧ TextEditorSyncAdapter.didSave pathToUri editor
      = [Notification.didSaveTextDocument (pathToUri ""),
         Notification.didChangeWatchedFiles
           [{ uri := pathToUri "", type := FileChangeType.Changed }]]
    ∧ (TextEditorSyncAdapter.sendFullChanges pathToUri s editor).2 ≠ []
    ∧ (∀ e : DidStopChangingEvent, e.changes ≠ [] →
        (TextEditorSyncAdapter.sendIncrementalChanges pathToUri conv s editor
          e).2 ≠ []) := by
  refine ⟨?_, ?_, ?_, ?_, ?_⟩
  · simp [TextEditorSyncAdapter.didOpen, hu]
  · simp [TextEditorSyncAdapter.didDestroy, hu]
  · simp [TextEditorSyncAdapter.didSave,
      TextEditorSyncAdapter.getEditorUri, hp]
  · simp [TextEditorSyncAdapter.sendFullChanges]
  · intro e hne
    have hlen : 0 < e.changes.length := List.length_pos.mpr hne
    simp [TextEditorSyncAdapter.sendIncrementalChanges, hlen]

/-- Witness for the amended C1 at the concrete never-saved editor. -/
theorem unsaved_identity_guards_witness :
    TextEditorSyncAdapter.didOpen samplePathToUri sampleIncSession
        unsavedEditor = []
    ∧ TextEditorSyncAdapter.didSave samplePathToUri unsavedEditor
      = [Notification.didSaveTextDocument (samplePathToUri ""),
         Notification.didChangeWatchedFiles
           [{ uri := samplePathToUri "", type := FileChangeType.Changed }]] := by
  have h := unsaved_identity_guards samplePathToUri sampleRangeConv
    sampleIncSession unsavedEditor rfl rfl
  exact ⟨h.1, h.2.2.1⟩
